import Mathlib

/-!
Shallow embedding of `src/query_data.py` from SCTeaching-NBody/LabCourse_Data.

The script queries NASA JPL's Horizons database for planets, dwarf planets and
moons, optionally queries the Small-Body Database for asteroids, merges both
into one CSV file and prints per-orbit-class statistics.  Network requests,
file writes and console prints are modelled as an explicit event trace; the
two remote services are oracles passed to `run`.  Floating-point values are
never computed with by the script (they are fetched, converted by the remote
library, and printed), so every numeric payload coming from an oracle or the
static mass table is embedded as its decimal string rendering.
-/

namespace QueryData

/-- The four values accepted by the `--scenario` command line option
(`src/query_data.py`, lines 30-33). -/
inductive Scenario where
  | planets_and_moons
  | scenario1
  | scenario2
  | full
deriving DecidableEq, Repr

/-- `argparse` result: `--output` (required), `--scenario` (defaulted), and the
optional integer `--limit` (`src/query_data.py`, lines 27-38). -/
structure Args where
  output : String
  scenario : Scenario
  limit : Option Int
deriving DecidableEq, Repr

/-- Keys of `major_bodies_dict` are either Horizons numeric ids or (for Ceres)
a name string (`src/query_data.py`, lines 76-271). -/
inductive BodyId where
  | num (n : Nat)
  | str (s : String)
deriving DecidableEq, Repr

/-- The `Body` dataclass (`src/query_data.py`, lines 67-72).  The mass is a
Python float literal that is only ever written back out, so it is embedded as
its literal text. -/
structure Body where
  name : String
  orbit_class : String
  central_body : String
  mass : String
deriving DecidableEq, Repr

/-- One row of Horizons orbital elements after `convert_unit_to('au')`, i.e.
the seven values read at `src/query_data.py` lines 289-290, as the decimal
strings that end up in the CSV file. -/
structure EphData where
  e : String
  a : String
  incl : String
  Omega : String
  w : String
  M : String
  datetime_jd : String
deriving DecidableEq, Repr

/-- Response of the Small-Body Database query (`src/query_data.py`, lines
352-362): an HTTP status code and the parsed JSON `data` array of rows. -/
structure SBResponse where
  status_code : Nat
  data : List (List String)
deriving DecidableEq, Repr

/-- Python's `string.whitespace` = `" \t\n\r\x0b\x0c"`, the characters removed
when minifying the scenario1 query (`src/query_data.py`, line 343). -/
def is_py_whitespace (c : Char) : Bool :=
  c == ' ' || c == '\t' || c == '\n' || c == '\x0b' || c == '\x0c' || c == '\x0d'

/-- `query.translate({ord(c): None for c in string.whitespace})`
(`src/query_data.py`, line 343): delete every whitespace character. -/
def minify (s : String) : String :=
  String.mk (s.data.filter (fun c => !(is_py_whitespace c)))

/-- Characters `urllib.parse.quote` leaves unescaped with its default
`safe='/'`: ASCII letters, digits, `_.-~` and `/`. -/
def is_quote_safe (c : Char) : Bool :=
  (decide ('A' ≤ c) && decide (c ≤ 'Z')) ||
  (decide ('a' ≤ c) && decide (c ≤ 'z')) ||
  (decide ('0' ≤ c) && decide (c ≤ '9')) ||
  c == '_' || c == '.' || c == '-' || c == '~' || c == '/'

/-- Uppercase hexadecimal digit, as used by `urllib.parse.quote`. -/
def hex_digit (n : Nat) : Char :=
  if n < 10 then Char.ofNat (48 + n) else Char.ofNat (55 + n)

/-- Percent-encoding of one character.  The program only ever encodes ASCII
text (the minified scenario1 JSON), for which `urllib.parse.quote` emits one
`%XX` escape per character. -/
def quote_char (c : Char) : List Char :=
  if is_quote_safe c then [c]
  else ['%', hex_digit (c.toNat / 16 % 16), hex_digit (c.toNat % 16)]

/-- `urllib.parse.quote` (`src/query_data.py`, line 345), modelled for ASCII
input. -/
def quote (s : String) : String :=
  String.mk (s.data.map quote_char).flatten

/-- Value of a hexadecimal digit character, accepting both cases as
`urllib.parse.unquote` does. -/
def hex_val (c : Char) : Option Nat :=
  if '0' ≤ c ∧ c ≤ '9' then some (c.toNat - 48)
  else if 'A' ≤ c ∧ c ≤ 'F' then some (c.toNat - 55)
  else if 'a' ≤ c ∧ c ≤ 'f' then some (c.toNat - 87)
  else none

/-- Percent-decoding on character lists: each `%XX` escape becomes the byte it
denotes, a stray `%` is kept verbatim (as in `urllib.parse.unquote`). -/
def unquote_chars : List Char → List Char
  | '%' :: h1 :: h2 :: rest =>
    match hex_val h1, hex_val h2 with
    | some a, some b => Char.ofNat (16 * a + b) :: unquote_chars rest
    | _, _ => '%' :: unquote_chars (h1 :: h2 :: rest)
  | c :: rest => c :: unquote_chars rest
  | [] => []

/-- Percent-decoding of an ASCII percent-encoded string. -/
def unquote (s : String) : String :=
  String.mk (unquote_chars s.data)

/-- Logical form of a Small-Body Database `sb-cdata` filter: a constraint
term such as `diameter|DF` or `class|NE|MBA`, or an `AND`/`OR` combination
(see https://ssd-api.jpl.nasa.gov/doc/sbdb_filter.html). -/
inductive SBFilter where
  | term (s : String)
  | andF (args : List SBFilter)
  | orF (args : List SBFilter)

/-- Scan the body of a JSON string literal up to its closing quote, returning
the content and the remaining input. -/
def scan_string_body : List Char → Option (List Char × List Char)
  | [] => none
  | '"' :: rest => some ([], rest)
  | c :: rest =>
    (scan_string_body rest).map (fun p => (c :: p.1, p.2))

mutual

/-- Parse one minified `sb-cdata` JSON value (a string term or a one-key
`AND`/`OR` object) into its logical form.  Fuel-driven recursion. -/
def parse_sb_value : Nat → List Char → Option (SBFilter × List Char)
  | 0, _ => none
  | _ + 1, '"' :: rest =>
    (scan_string_body rest).map (fun p => (SBFilter.term (String.mk p.1), p.2))
  | fuel + 1, '\x7b' :: '"' :: rest => do
    let (key, rest1) ← scan_string_body rest
    match rest1 with
    | ':' :: '[' :: rest2 => do
      let (args, rest3) ← parse_sb_array fuel rest2
      match rest3 with
      | '\x7d' :: rest4 =>
        match String.mk key with
        | "AND" => some (SBFilter.andF args, rest4)
        | "OR" => some (SBFilter.orF args, rest4)
        | _ => none
      | _ => none
    | _ => none
  | _ + 1, _ => none

/-- Parse a comma-separated sequence of `sb-cdata` values up to the closing
`]` (which is consumed). -/
def parse_sb_array : Nat → List Char → Option (List SBFilter × List Char)
  | 0, _ => none
  | fuel + 1, cs => do
    let (v, rest) ← parse_sb_value fuel cs
    match rest with
    | ',' :: rest2 => (parse_sb_array fuel rest2).map (fun p => (v :: p.1, p.2))
    | ']' :: rest2 => some ([v], rest2)
    | _ => none

end

/-- Parse a complete minified `sb-cdata` filter string into its logical form;
succeeds only if the whole input is consumed. -/
def parse_sb_filter (s : String) : Option SBFilter :=
  match parse_sb_value 100 s.data with
  | some (f, []) => some f
  | _ => none

/-- The raw scenario1 constraint query exactly as written in the `r'''...'''`
literal at `src/query_data.py`, lines 334-341 (including its newlines and
indentation). -/
def scenario1_query_raw : String :=
  "\n            \x7b\n                \"AND\": [\n                    \x7b \"AND\" : [ \"diameter|DF\", \"albedo|DF\" ] \x7d,\n                    \x7b \"OR\" : [ \"class|NE|MBA\", \"diameter|GE|10\" ] \x7d\n                ]\n            \x7d\n            "

/-- The logical form the source constructs for scenario1: diameter and albedo
both defined, AND (orbit class NOT EQUAL to main-belt OR diameter ≥ 10 km).
The code comment (lines 332-333) states the same intent: main-belt asteroids
are additionally constrained to a diameter of at least 10 km. -/
def scenario1_filter_form : SBFilter :=
  SBFilter.andF
    [SBFilter.andF [SBFilter.term "diameter|DF", SBFilter.term "albedo|DF"],
     SBFilter.orF [SBFilter.term "class|NE|MBA", SBFilter.term "diameter|GE|10"]]

/-- The logical form claim C1 asserts (as worded in the specification):
diameter and albedo both defined, AND (orbit class EQUAL to main-belt OR
diameter ≥ 10 km).  `EQ` is the equality operator of the `sb-cdata` filter
language. -/
def claim_C1_filter_form : SBFilter :=
  SBFilter.andF
    [SBFilter.andF [SBFilter.term "diameter|DF", SBFilter.term "albedo|DF"],
     SBFilter.orF [SBFilter.term "class|EQ|MBA", SBFilter.term "diameter|GE|10"]]

/-- The `&sb-cdata=` constraint parameter built for scenario1
(`src/query_data.py`, lines 334-345). -/
def scenario1_constraint : String :=
  "&sb-cdata=" ++ quote (minify scenario1_query_raw)

/-- The platform line separator `os.linesep`, modelled as a single line feed.
Only the claims about the `,,`-prefix of the small-body line terminator depend
on the terminator at all, never on the platform rendering of the newline. -/
def os_linesep : String := "\n"

/-- CSV minimal quoting: a field is quoted (with inner quotes doubled) exactly
when it contains a delimiter, a quote character or a line break; otherwise it
is written verbatim.  This is the `csv.writer` default dialect semantics. -/
def csv_quote_field (f : String) : String :=
  if f.data.any (fun c => c == ',' || c == '"' || c == '\n' || c == '\r') then
    "\"" ++ String.mk (f.data.flatMap (fun c => if c == '"' then ['"', '"'] else [c])) ++ "\""
  else f

/-- Join already-quoted CSV fields with comma delimiters. -/
def csv_join : List String → String
  | [] => ""
  | [f] => f
  | f :: rest => f ++ "," ++ csv_join rest

/-- One physical line produced by `csv.writer(csvfile, lineterminator=term)`
for one row: quoted fields joined by commas, followed by the terminator.
The header/major-body writer uses `term = os.linesep` (line 50); the
small-body writer uses `term = ",," + os.linesep` (line 327). -/
def csv_line (term : String) (fields : List String) : String :=
  csv_join (fields.map csv_quote_field) ++ term

/-- The line terminator of the small-body `csv.writer`
(`src/query_data.py`, line 327): two extra empty fields, then the newline. -/
def small_lineterminator : String := ",," ++ os_linesep

/-- The CSV header row written at `src/query_data.py`, lines 51-52. -/
def header_row : List String :=
  ["e", "a", "i", "om", "w", "ma", "epoch", "H", "albedo", "diameter", "class",
   "name", "mass", "central_body"]

/-- `major_bodies_dict` (`src/query_data.py`, lines 76-271): every planet,
dwarf planet and moon with a known mass, in insertion order (Python dicts
iterate in insertion order).  Masses are kept as their source literals. -/
def major_bodies_dict : List (BodyId × Body) := [
  (BodyId.num 199, Body.mk "Mercury" "PLA" "Sun" "3.301011e+23"),
  (BodyId.num 299, Body.mk "Venus" "PLA" "Sun" "4.867320e+24"),
  (BodyId.num 399, Body.mk "Earth" "PLA" "Sun" "5.972186e+24"),
  (BodyId.num 499, Body.mk "Mars" "PLA" "Sun" "6.416928e+23"),
  (BodyId.num 599, Body.mk "Jupiter" "PLA" "Sun" "1.898130e+27"),
  (BodyId.num 699, Body.mk "Saturn" "PLA" "Sun" "5.683191e+26"),
  (BodyId.num 799, Body.mk "Uranus" "PLA" "Sun" "8.681013e+25"),
  (BodyId.num 899, Body.mk "Neptune" "PLA" "Sun" "1.024096e+26"),
  (BodyId.str "Ceres", Body.mk "Ceres" "DWA" "Sun" "9.47e+20"),
  (BodyId.num 999, Body.mk "Pluto" "DWA" "Sun" "1.302933e+22"),
  (BodyId.num 136199, Body.mk "Eris" "DWA" "Sun" "1.671600e+22"),
  (BodyId.num 136108, Body.mk "Haumea" "DWA" "Sun" "4.006000e+21"),
  (BodyId.num 136472, Body.mk "Makemake" "DWA" "Sun" "3.100000e+21"),
  (BodyId.num 225088, Body.mk "Gonggong" "DWA" "Sun" "1.750000e+21"),
  (BodyId.num 50000, Body.mk "Quaoar" "DWA" "Sun" "1.400000e+21"),
  (BodyId.num 90377, Body.mk "Sedna" "DWA" "Sun" "1.194000e+21"),
  (BodyId.num 90482, Body.mk "Orcus" "DWA" "Sun" "6.348000e+20"),
  (BodyId.num 120347, Body.mk "Salacia" "DWA" "Sun" "4.922000e+20"),
  (BodyId.num 301, Body.mk "Luna" "SAT" "Earth" "7.345811e+22"),
  (BodyId.num 401, Body.mk "Phobos" "SAT" "Mars" "1.061919e+16"),
  (BodyId.num 402, Body.mk "Deimos" "SAT" "Mars" "1.440690e+15"),
  (BodyId.num 501, Body.mk "Io" "SAT" "Jupiter" "8.929676e+22"),
  (BodyId.num 502, Body.mk "Europa" "SAT" "Jupiter" "4.798588e+22"),
  (BodyId.num 503, Body.mk "Ganymede" "SAT" "Jupiter" "1.481483e+23"),
  (BodyId.num 504, Body.mk "Callisto" "SAT" "Jupiter" "1.075664e+23"),
  (BodyId.num 505, Body.mk "Amalthea" "SAT" "Jupiter" "2.465636e+18"),
  (BodyId.num 506, Body.mk "Himalia" "SAT" "Jupiter" "2.270693e+18"),
  (BodyId.num 507, Body.mk "Elara" "SAT" "Jupiter" "8.692277e+17"),
  (BodyId.num 508, Body.mk "Pasiphae" "SAT" "Jupiter" "2.997337e+17"),
  (BodyId.num 509, Body.mk "Sinope" "SAT" "Jupiter" "7.493342e+16"),
  (BodyId.num 510, Body.mk "Lysithea" "SAT" "Jupiter" "6.294407e+16"),
  (BodyId.num 511, Body.mk "Carme" "SAT" "Jupiter" "1.318828e+17"),
  (BodyId.num 512, Body.mk "Ananke" "SAT" "Jupiter" "2.997337e+16"),
  (BodyId.num 513, Body.mk "Leda" "SAT" "Jupiter" "1.094028e+16"),
  (BodyId.num 514, Body.mk "Thebe" "SAT" "Jupiter" "4.517042e+17"),
  (BodyId.num 515, Body.mk "Adrastea" "SAT" "Jupiter" "2.082622e+15"),
  (BodyId.num 516, Body.mk "Metis" "SAT" "Jupiter" "3.747221e+16"),
  (BodyId.num 517, Body.mk "Callirrhoe" "SAT" "Jupiter" "8.692277e+14"),
  (BodyId.num 518, Body.mk "Themisto" "SAT" "Jupiter" "6.893875e+14"),
  (BodyId.num 519, Body.mk "Megaclite" "SAT" "Jupiter" "2.098136e+14"),
  (BodyId.num 520, Body.mk "Taygete" "SAT" "Jupiter" "1.648535e+14"),
  (BodyId.num 521, Body.mk "Chaldene" "SAT" "Jupiter" "7.493342e+13"),
  (BodyId.num 522, Body.mk "Harpalyke" "SAT" "Jupiter" "1.198935e+14"),
  (BodyId.num 523, Body.mk "Kalyke" "SAT" "Jupiter" "1.948269e+14"),
  (BodyId.num 524, Body.mk "Iocaste" "SAT" "Jupiter" "1.948269e+14"),
  (BodyId.num 525, Body.mk "Erinome" "SAT" "Jupiter" "4.496005e+13"),
  (BodyId.num 526, Body.mk "Isonoe" "SAT" "Jupiter" "7.493342e+13"),
  (BodyId.num 527, Body.mk "Praxidike" "SAT" "Jupiter" "4.346138e+14"),
  (BodyId.num 528, Body.mk "Autonoe" "SAT" "Jupiter" "8.992011e+13"),
  (BodyId.num 529, Body.mk "Thyone" "SAT" "Jupiter" "8.992011e+13"),
  (BodyId.num 530, Body.mk "Hermippe" "SAT" "Jupiter" "8.992011e+13"),
  (BodyId.num 531, Body.mk "Aitne" "SAT" "Jupiter" "4.496005e+13"),
  (BodyId.num 532, Body.mk "Eurydome" "SAT" "Jupiter" "4.496005e+13"),
  (BodyId.num 533, Body.mk "Euanthe" "SAT" "Jupiter" "4.496005e+13"),
  (BodyId.num 534, Body.mk "Euporie" "SAT" "Jupiter" "1.498668e+13"),
  (BodyId.num 535, Body.mk "Orthosie" "SAT" "Jupiter" "1.498668e+13"),
  (BodyId.num 536, Body.mk "Sponde" "SAT" "Jupiter" "1.498668e+13"),
  (BodyId.num 537, Body.mk "Kale" "SAT" "Jupiter" "1.498668e+13"),
  (BodyId.num 538, Body.mk "Pasithee" "SAT" "Jupiter" "1.498668e+13"),
  (BodyId.num 539, Body.mk "Hegemone" "SAT" "Jupiter" "4.496005e+13"),
  (BodyId.num 540, Body.mk "Mneme" "SAT" "Jupiter" "1.498668e+13"),
  (BodyId.num 541, Body.mk "Aoede" "SAT" "Jupiter" "8.992011e+13"),
  (BodyId.num 542, Body.mk "Thelxinoe" "SAT" "Jupiter" "1.498668e+13"),
  (BodyId.num 543, Body.mk "Arche" "SAT" "Jupiter" "4.496005e+13"),
  (BodyId.num 544, Body.mk "Kallichore" "SAT" "Jupiter" "1.498668e+13"),
  (BodyId.num 545, Body.mk "Helike" "SAT" "Jupiter" "8.992011e+13"),
  (BodyId.num 546, Body.mk "Carpo" "SAT" "Jupiter" "4.496005e+13"),
  (BodyId.num 547, Body.mk "Eukelade" "SAT" "Jupiter" "8.992011e+13"),
  (BodyId.num 548, Body.mk "Cyllene" "SAT" "Jupiter" "1.498668e+13"),
  (BodyId.num 549, Body.mk "Kore" "SAT" "Jupiter" "1.498668e+13"),
  (BodyId.num 550, Body.mk "Herse" "SAT" "Jupiter" "1.498668e+13"),
  (BodyId.num 553, Body.mk "Dia" "SAT" "Jupiter" "5.520000e+12"),
  (BodyId.num 557, Body.mk "Eirene" "SAT" "Jupiter" "5.520000e+12"),
  (BodyId.num 558, Body.mk "Philophrosyne" "SAT" "Jupiter" "2.760000e+12"),
  (BodyId.num 560, Body.mk "Eupheme" "SAT" "Jupiter" "2.760000e+12"),
  (BodyId.num 562, Body.mk "Valetudo" "SAT" "Jupiter" "1.380000e+12"),
  (BodyId.num 565, Body.mk "Pandia" "SAT" "Jupiter" "4.140000e+12"),
  (BodyId.num 571, Body.mk "Ersa" "SAT" "Jupiter" "4.140000e+12"),
  (BodyId.num 601, Body.mk "Mimas" "SAT" "Saturn" "3.750950e+19"),
  (BodyId.num 602, Body.mk "Enceladus" "SAT" "Saturn" "1.080321e+20"),
  (BodyId.num 603, Body.mk "Tethys" "SAT" "Saturn" "6.174978e+20"),
  (BodyId.num 604, Body.mk "Dione" "SAT" "Saturn" "1.095490e+21"),
  (BodyId.num 605, Body.mk "Rhea" "SAT" "Saturn" "2.306492e+21"),
  (BodyId.num 606, Body.mk "Titan" "SAT" "Saturn" "1.345184e+23"),
  (BodyId.num 607, Body.mk "Hyperion" "SAT" "Saturn" "5.551031e+18"),
  (BodyId.num 608, Body.mk "Iapetus" "SAT" "Saturn" "1.805665e+21"),
  (BodyId.num 609, Body.mk "Phoebe" "SAT" "Saturn" "8.312297e+18"),
  (BodyId.num 610, Body.mk "Janus" "SAT" "Saturn" "1.896482e+18"),
  (BodyId.num 611, Body.mk "Epimetheus" "SAT" "Saturn" "5.262490e+17"),
  (BodyId.num 612, Body.mk "Helene" "SAT" "Saturn" "7.127989e+15"),
  (BodyId.num 613, Body.mk "Telesto" "SAT" "Saturn" "4.046405e+15"),
  (BodyId.num 614, Body.mk "Calypso" "SAT" "Saturn" "2.547736e+15"),
  (BodyId.num 615, Body.mk "Atlas" "SAT" "Saturn" "5.571944e+15"),
  (BodyId.num 616, Body.mk "Prometheus" "SAT" "Saturn" "1.610972e+17"),
  (BodyId.num 617, Body.mk "Pandora" "SAT" "Saturn" "1.391959e+17"),
  (BodyId.num 618, Body.mk "Pan" "SAT" "Saturn" "4.945606e+15"),
  (BodyId.num 619, Body.mk "Ymir" "SAT" "Saturn" "4.945606e+15"),
  (BodyId.num 620, Body.mk "Paaliaq" "SAT" "Saturn" "8.242676e+15"),
  (BodyId.num 621, Body.mk "Tarvos" "SAT" "Saturn" "2.697603e+15"),
  (BodyId.num 622, Body.mk "Ijiraq" "SAT" "Saturn" "1.198935e+15"),
  (BodyId.num 623, Body.mk "Suttungr" "SAT" "Saturn" "2.098136e+14"),
  (BodyId.num 624, Body.mk "Kiviuq" "SAT" "Saturn" "3.297071e+15"),
  (BodyId.num 625, Body.mk "Mundilfari" "SAT" "Saturn" "2.098136e+14"),
  (BodyId.num 626, Body.mk "Albiorix" "SAT" "Saturn" "2.098136e+16"),
  (BodyId.num 627, Body.mk "Skathi" "SAT" "Saturn" "3.147204e+14"),
  (BodyId.num 628, Body.mk "Erriapus" "SAT" "Saturn" "7.643209e+14"),
  (BodyId.num 629, Body.mk "Siarnaq" "SAT" "Saturn" "3.896538e+16"),
  (BodyId.num 630, Body.mk "Thrymr" "SAT" "Saturn" "2.098136e+14"),
  (BodyId.num 631, Body.mk "Narvi" "SAT" "Saturn" "3.446937e+14"),
  (BodyId.num 632, Body.mk "Methone" "SAT" "Saturn" "8.992011e+12"),
  (BodyId.num 633, Body.mk "Pallene" "SAT" "Saturn" "3.297071e+13"),
  (BodyId.num 634, Body.mk "Polydeuces" "SAT" "Saturn" "4.496005e+12"),
  (BodyId.num 635, Body.mk "Daphnis" "SAT" "Saturn" "7.793076e+13"),
  (BodyId.num 636, Body.mk "Aegir" "SAT" "Saturn" "2.599000e+14"),
  (BodyId.num 637, Body.mk "Bebhionn" "SAT" "Saturn" "2.599000e+14"),
  (BodyId.num 638, Body.mk "Bergelmir" "SAT" "Saturn" "2.599000e+14"),
  (BodyId.num 639, Body.mk "Bestla" "SAT" "Saturn" "4.140000e+14"),
  (BodyId.num 640, Body.mk "Farbauti" "SAT" "Saturn" "1.495000e+14"),
  (BodyId.num 641, Body.mk "Fenrir" "SAT" "Saturn" "7.820000e+13"),
  (BodyId.num 642, Body.mk "Fornjot" "SAT" "Saturn" "8.280000e+12"),
  (BodyId.num 643, Body.mk "Hati" "SAT" "Saturn" "2.599000e+14"),
  (BodyId.num 644, Body.mk "Hyrrokkin" "SAT" "Saturn" "2.599000e+14"),
  (BodyId.num 645, Body.mk "Kari" "SAT" "Saturn" "2.599000e+14"),
  (BodyId.num 646, Body.mk "Loge" "SAT" "Saturn" "2.599000e+14"),
  (BodyId.num 647, Body.mk "Skoll" "SAT" "Saturn" "2.599000e+14"),
  (BodyId.num 648, Body.mk "Surtur" "SAT" "Saturn" "2.599000e+14"),
  (BodyId.num 649, Body.mk "Anthe" "SAT" "Saturn" "1.498668e+12"),
  (BodyId.num 650, Body.mk "Jarnsaxa" "SAT" "Saturn" "2.599000e+14"),
  (BodyId.num 651, Body.mk "Greip" "SAT" "Saturn" "2.599000e+14"),
  (BodyId.num 652, Body.mk "Tarqeq" "SAT" "Saturn" "2.599000e+14"),
  (BodyId.num 653, Body.mk "Aegaeon" "SAT" "Saturn" "5.994674e+10"),
  (BodyId.num 701, Body.mk "Ariel" "SAT" "Uranus" "1.250524e+21"),
  (BodyId.num 702, Body.mk "Umbriel" "SAT" "Uranus" "1.274945e+21"),
  (BodyId.num 703, Body.mk "Titania" "SAT" "Uranus" "3.400272e+21"),
  (BodyId.num 704, Body.mk "Oberon" "SAT" "Uranus" "3.076338e+21"),
  (BodyId.num 705, Body.mk "Miranda" "SAT" "Uranus" "6.471884e+19"),
  (BodyId.num 706, Body.mk "Cordelia" "SAT" "Uranus" "4.496005e+16"),
  (BodyId.num 707, Body.mk "Ophelia" "SAT" "Uranus" "5.395206e+16"),
  (BodyId.num 708, Body.mk "Bianca" "SAT" "Uranus" "9.291744e+16"),
  (BodyId.num 709, Body.mk "Cressida" "SAT" "Uranus" "3.431951e+17"),
  (BodyId.num 710, Body.mk "Desdemona" "SAT" "Uranus" "1.783415e+17"),
  (BodyId.num 711, Body.mk "Juliet" "SAT" "Uranus" "5.575047e+17"),
  (BodyId.num 712, Body.mk "Portia" "SAT" "Uranus" "1.681506e+18"),
  (BodyId.num 713, Body.mk "Rosalind" "SAT" "Uranus" "2.547736e+17"),
  (BodyId.num 714, Body.mk "Belinda" "SAT" "Uranus" "3.566831e+17"),
  (BodyId.num 715, Body.mk "Puck" "SAT" "Uranus" "2.893929e+18"),
  (BodyId.num 716, Body.mk "Caliban" "SAT" "Uranus" "2.997337e+17"),
  (BodyId.num 717, Body.mk "Sycorax" "SAT" "Uranus" "2.697603e+18"),
  (BodyId.num 718, Body.mk "Prospero" "SAT" "Uranus" "9.891212e+16"),
  (BodyId.num 719, Body.mk "Setebos" "SAT" "Uranus" "8.692277e+16"),
  (BodyId.num 720, Body.mk "Stephano" "SAT" "Uranus" "2.547736e+16"),
  (BodyId.num 721, Body.mk "Trinculo" "SAT" "Uranus" "4.645872e+15"),
  (BodyId.num 722, Body.mk "Francisco" "SAT" "Uranus" "8.392543e+15"),
  (BodyId.num 723, Body.mk "Margaret" "SAT" "Uranus" "6.294407e+15"),
  (BodyId.num 724, Body.mk "Ferdinand" "SAT" "Uranus" "6.294407e+15"),
  (BodyId.num 725, Body.mk "Perdita" "SAT" "Uranus" "1.800000e+16"),
  (BodyId.num 726, Body.mk "Mab" "SAT" "Uranus" "1.000000e+15"),
  (BodyId.num 727, Body.mk "Cupid" "SAT" "Uranus" "3.800000e+15"),
  (BodyId.num 801, Body.mk "Triton" "SAT" "Neptune" "2.140299e+22"),
  (BodyId.num 802, Body.mk "Nereid" "SAT" "Neptune" "3.087257e+19"),
  (BodyId.num 803, Body.mk "Naiad" "SAT" "Neptune" "1.278083e+17"),
  (BodyId.num 804, Body.mk "Thalassa" "SAT" "Neptune" "3.534274e+17"),
  (BodyId.num 805, Body.mk "Despina" "SAT" "Neptune" "1.748980e+18"),
  (BodyId.num 806, Body.mk "Galatea" "SAT" "Neptune" "2.845228e+18"),
  (BodyId.num 807, Body.mk "Larissa" "SAT" "Neptune" "3.818296e+18"),
  (BodyId.num 808, Body.mk "Proteus" "SAT" "Neptune" "3.870713e+19"),
  (BodyId.num 809, Body.mk "Halimede" "SAT" "Neptune" "8.992011e+16"),
  (BodyId.num 810, Body.mk "Psamathe" "SAT" "Neptune" "1.498668e+16"),
  (BodyId.num 811, Body.mk "Sao" "SAT" "Neptune" "8.992011e+16"),
  (BodyId.num 812, Body.mk "Laomedeia" "SAT" "Neptune" "8.992011e+16"),
  (BodyId.num 813, Body.mk "Neso" "SAT" "Neptune" "1.648535e+17"),
  (BodyId.num 814, Body.mk "Hippocamp" "SAT" "Neptune" "1.500000e+16"),
  (BodyId.num 901, Body.mk "Charon" "SAT" "Pluto" "1.586388e+21"),
  (BodyId.num 902, Body.mk "Nix" "SAT" "Pluto" "4.567048e+16"),
  (BodyId.num 903, Body.mk "Hydra" "SAT" "Pluto" "4.811065e+16"),
  (BodyId.num 904, Body.mk "Kerberos" "SAT" "Pluto" "1.663162e+16"),
  (BodyId.num 905, Body.mk "Styx" "SAT" "Pluto" "7.500000e+15")]
/-- The `location` argument of each Horizons query (`src/query_data.py`,
lines 278-284): heliocentric for Sun-centred bodies, geocentric for Earth
moons, otherwise the central body's barycentre. -/
def location_query (b : Body) : String :=
  if b.central_body = "Sun" then "@sun"
  else if b.central_body = "Earth" then "Geocentric"
  else b.central_body ++ " Barycenter"

/-- The row appended for one major body (`src/query_data.py`, lines 289-292):
seven orbital-element strings from Horizons, three empty optional fields, then
orbit class, name, mass and central body from the catalog entry. -/
def horizons_row (eph : BodyId → EphData) (id : BodyId) (b : Body) : List String :=
  [(eph id).e, (eph id).a, (eph id).incl, (eph id).Omega, (eph id).w, (eph id).M,
   (eph id).datetime_jd, "", "", "", b.orbit_class, b.name, b.mass, b.central_body]

/-- `jpl_horizons_data` (`src/query_data.py`, lines 276-292): one row per
catalog entry, in catalog iteration order. -/
def jpl_horizons_data (eph : BodyId → EphData) : List (List String) :=
  major_bodies_dict.map (fun p => horizons_row eph p.1 p.2)

/-- The Small-Body Database API URL (`src/query_data.py`, line 320). -/
def sb_url : String := "https://ssd-api.jpl.nasa.gov/sbdb_query.api"

/-- The fixed field-list query parameters (`src/query_data.py`, line 322). -/
def sb_fields : String :=
  "full-prec=true&fields=e,a,i,om,w,ma,epoch,H,albedo,diameter,class,full_name"

/-- The full request URL for the small-body query
(`src/query_data.py`, line 352). -/
def sb_query_url (constraint : String) : String :=
  sb_url ++ "?" ++ sb_fields ++ constraint ++ "&sb-kind=a"

/-- The error raised on a non-200 small-body response
(`src/query_data.py`, lines 354-357). -/
def request_error_msg (status : Nat) : String :=
  "Error " ++ toString status ++ " performing request. For more information see https://ssd-api.jpl.nasa.gov/doc/sbdb_query.html#http-response-codes."

/-- The error raised when `--limit` is below the number of major bodies plus
one (`src/query_data.py`, lines 301-303). -/
def limit_error_msg (l : Int) (numMajor : Nat) : String :=
  "-l/--limit (" ++ toString l ++ ") must be at least as large as the number of planets and moons + 1 (accounting for the Sun) which is " ++ toString (numMajor + 1) ++ "!"

/-- The string value of each `--scenario` choice, as printed in the greeting
line (`src/query_data.py`, line 46). -/
def scenario_arg_string : Scenario → String
  | Scenario.planets_and_moons => "planets_and_moons"
  | Scenario.scenario1 => "scenario1"
  | Scenario.scenario2 => "scenario2"
  | Scenario.full => "full"

/-- The `orbit_classes` statistics table (`src/query_data.py`, lines 373-393):
code, human-readable label, counter initialised to zero; 17 entries in source
order. -/
def orbit_classes_init : List (String × String × Nat) :=
  [("PLA", "Planets", 0),
   ("DWA", "Dwarf Planets", 0),
   ("SAT", "Moons", 0),
   ("IEO", "Atira", 0),
   ("ATE", "Aten", 0),
   ("APO", "Apollo", 0),
   ("AMO", "Amor", 0),
   ("MCA", "Mars-crossing Asteroid", 0),
   ("IMB", "Inner Main-belt Asteroid", 0),
   ("MBA", "Main-belt Asteroid", 0),
   ("OMB", "Outer Main-belt Asteroid", 0),
   ("TJN", "Jupiter Trojan", 0),
   ("AST", "Asteroid", 0),
   ("CEN", "Centaur", 0),
   ("TNO", "TransNeptunian Object", 0),
   ("PAA", "Parabolic \"Asteroid\"", 0),
   ("HYA", "Hyperbolic \"Asteroid\"", 0)]

/-- `orbit_classes[code][1] += 1`: increment the counter of the first entry
whose code matches; fail (Python `KeyError`) when no entry matches. -/
def tally_step : List (String × String × Nat) → String → Option (List (String × String × Nat))
  | [], _ => none
  | (c, l, n) :: rest, code =>
    if c = code then some ((c, l, n + 1) :: rest)
    else (tally_step rest code).map (fun r => (c, l, n) :: r)

/-- The statistics loops (`src/query_data.py`, lines 394-398): for every data
row, increment the counter of `row[10]`; a row with no index 10 (`IndexError`)
or an unknown code (`KeyError`) aborts the run. -/
def tally_rows : List (String × String × Nat) → List (List String) → Option (List (String × String × Nat))
  | t, [] => some t
  | t, row :: rest =>
    match row.get? 10 with
    | none => none
    | some code =>
      match tally_step t code with
      | none => none
      | some t2 => tally_rows t2 rest

/-- One line of the printed statistics table
(`src/query_data.py`, line 401): `"{code} ({label})"` and the count. -/
def stats_table (t : List (String × String × Nat)) : List (String × Nat) :=
  t.map (fun x => (x.1 ++ " (" ++ x.2.1 ++ ")", x.2.2))

/-- `total_number_of_bodies` (`src/query_data.py`, lines 408-410): the sum of
all orbit-class counters. -/
def total_number_of_bodies (t : List (String × String × Nat)) : Nat :=
  (t.map (fun x => x.2.2)).sum

/-- The final console line (`src/query_data.py`, line 411). -/
def total_line (t : List (String × String × Nat)) : String :=
  "Total number of bodies is " ++ toString (total_number_of_bodies t) ++ " + 1 (Sun) = " ++ toString (total_number_of_bodies t + 1) ++ "."

/-- Observable events of one run: console prints, CSV line writes, network
requests, and the fatal error that aborts the process. -/
inductive Event where
  | printMsg (s : String)
  | printTiming (db : String)
  | printTable (rows : List (String × Nat))
  | writeLine (line : String)
  | netMajor (id : BodyId)
  | netSmall (requestUrl : String)
  | fatal (msg : String)
deriving DecidableEq, Repr

/-- Events of the statistics phase (`src/query_data.py`, lines 373-411):
tally every data row, then print the table and the total line; abort on an
unknown orbit-class code. -/
def stats_events (rows : List (List String)) : List Event :=
  match tally_rows orbit_classes_init rows with
  | none => [Event.fatal "KeyError: unknown orbit class"]
  | some t =>
    [Event.printMsg "", Event.printTable (stats_table t), Event.printMsg "",
     Event.printMsg (total_line t)]

/-- Events of the small-body phase and everything after it
(`src/query_data.py`, lines 314-411).  `adjusted` is the already-decremented
limit (`args.limit` after line 306); it is `some _` exactly for scenario2 on
validated arguments, so the `getD 0` default is never reached on a run that
got this far with consistent arguments. -/
def small_and_stats (scenario : Scenario) (adjusted : Option Int)
    (rows : List (List String)) (sb : SBResponse) : List Event :=
  if scenario = Scenario.planets_and_moons then
    stats_events rows
  else
    let constraint : String :=
      if scenario = Scenario.scenario1 then scenario1_constraint
      else if scenario = Scenario.scenario2 then "&limit=" ++ toString (adjusted.getD 0)
      else ""
    Event.netSmall (sb_query_url constraint) ::
    (if sb.status_code ≠ 200 then
      [Event.fatal (request_error_msg sb.status_code)]
    else
      sb.data.map (fun r => Event.writeLine (csv_line small_lineterminator r)) ++
      [Event.printTiming "NASA JPL Small Body Database"] ++
      stats_events (rows ++ sb.data))

/-- Events up to and including the end of the major-body phase
(`src/query_data.py`, lines 46-298): the greeting print, the CSV header write,
one Horizons request per catalog entry, the writes of all major-body rows, and
the timing print. -/
def pre_events (output : String) (scenario : Scenario) (eph : BodyId → EphData) : List Event :=
  Event.printMsg ("Generating \"" ++ output ++ "\" file for the \"" ++
    scenario_arg_string scenario ++ "\" scenario.") ::
  Event.writeLine (csv_line os_linesep header_row) ::
  (major_bodies_dict.map (fun p => Event.netMajor p.1) ++
   (jpl_horizons_data eph).map (fun r => Event.writeLine (csv_line os_linesep r)) ++
   [Event.printTiming "NASA Horizons Database"])

/-- The whole run of `src/query_data.py` as an event trace, parametrised by
the Horizons oracle `eph` and the small-body response `sb`: argument sanity
checks (lines 41-44), greeting and CSV header (lines 46-52), one Horizons
request per catalog entry followed by writing all major-body rows (lines
276-298), the limit minimum check and adjustment (lines 300-306), the
small-body phase (lines 314-365) and the statistics (lines 373-411). -/
def run (args : Args) (eph : BodyId → EphData) (sb : SBResponse) : List Event :=
  if args.scenario ≠ Scenario.scenario2 ∧ args.limit.isSome then
    [Event.fatal "-l/--limit may only be used with -s/--scenario scenario2"]
  else if args.scenario = Scenario.scenario2 ∧ args.limit.isNone then
    [Event.fatal "-l/--limit must be provided for -s/--scenario scenario2"]
  else
    let rows := jpl_horizons_data eph
    match args.limit with
    | some l =>
      if l < (rows.length : Int) + 1 then
        pre_events args.output args.scenario eph ++ [Event.fatal (limit_error_msg l rows.length)]
      else
        pre_events args.output args.scenario eph ++
          small_and_stats args.scenario (some (l - rows.length - 1)) rows sb
    | none =>
      pre_events args.output args.scenario eph ++ small_and_stats args.scenario none rows sb

/-- The CSV file content of a trace: the payloads of its write events, in
order (the file handle is append-only). -/
def file_lines (evts : List Event) : List String :=
  evts.filterMap (fun e => match e with
    | Event.writeLine l => some l
    | _ => none)

/-- Network activity: a Horizons request or the small-body request. -/
def is_network_event : Event → Bool
  | Event.netMajor _ => true
  | Event.netSmall _ => true
  | _ => false

/-- The single bulk request to the small-body catalog. -/
def is_net_small : Event → Bool
  | Event.netSmall _ => true
  | _ => false

/-- A constant Horizons oracle used to instantiate concrete runs. -/
def const_eph : BodyId → EphData :=
  fun _ => EphData.mk "0.0" "1.0" "0.0" "0.0" "0.0" "0.0" "2451544.5"

/-- Tallying a list of orbit-class codes directly.  The class entry of a
major-body row is the catalog entry's class, independent of the ephemeris
response, so tallying the produced rows is tallying the catalog's codes. -/
def tally_codes : List (String × String × Nat) → List String → Option (List (String × String × Nat))
  | t, [] => some t
  | t, c :: rest =>
    match tally_step t c with
    | none => none
    | some t2 => tally_codes t2 rest

/-- Whether a record's orbit-class code (its field of index 10) occurs in a
list of counter keys: the decidable guard of the statistics invariant. -/
def known_code (keys : List String) (r : List String) : Bool :=
  match r.get? 10 with
  | some c => keys.any (fun k => k == c)
  | none => false

/-- Split a character list at commas: the first field and the list of the
remaining fields. -/
def split_commas_chars : List Char → List Char × List (List Char)
  | [] => ([], [])
  | c :: rest =>
    if c = ',' then ([], (split_commas_chars rest).1 :: (split_commas_chars rest).2)
    else (c :: (split_commas_chars rest).1, (split_commas_chars rest).2)

/-- The comma-separated fields of a CSV line (no quote handling; used on
lines whose fields are comma-free). -/
def split_commas (s : String) : List String :=
  String.mk (split_commas_chars s.data).1 :: (split_commas_chars s.data).2.map String.mk

/-! ## Claims about the scenario1 constraint query (C1, C5) -/

set_option maxRecDepth 100000

/-- C1, counterexample: the scenario1 filter string constructed at
`src/query_data.py` lines 334-345 parses to the form whose class term is
`class|NE|MBA` (orbit class NOT equal to main-belt), not to the form the claim
states, whose class term would be `class|EQ|MBA` (orbit class equal to
main-belt).  The two forms differ, so the claimed logical form is not the one
the code constructs. -/
theorem C1_counterexample :
    parse_sb_filter (minify scenario1_query_raw) = some scenario1_filter_form ∧
    parse_sb_filter (minify scenario1_query_raw) ≠ some claim_C1_filter_form := by
  refine ⟨rfl, fun h => ?_⟩
  rw [show parse_sb_filter (minify scenario1_query_raw) = some scenario1_filter_form from rfl]
    at h
  simp only [Option.some.injEq, scenario1_filter_form, claim_C1_filter_form,
    SBFilter.andF.injEq, SBFilter.orF.injEq, SBFilter.term.injEq, List.cons.injEq,
    and_true, true_and] at h
  exact absurd h (by decide)

/-- C1, amended: for scenario = constrained (scenario1) the filter expression
sent to the small-body catalog, after whitespace stripping, is the conjunction
requiring diameter and albedo both defined, AND (orbit class ≠ main-belt OR
diameter ≥ 10 km). -/
theorem C1_scenario1_filter_logical_form :
    minify scenario1_query_raw =
      "\x7b\"AND\":[\x7b\"AND\":[\"diameter|DF\",\"albedo|DF\"]\x7d,\x7b\"OR\":[\"class|NE|MBA\",\"diameter|GE|10\"]\x7d]\x7d" ∧
    parse_sb_filter (minify scenario1_query_raw) = some scenario1_filter_form ∧
    scenario1_constraint = "&sb-cdata=" ++ quote (minify scenario1_query_raw) :=
  ⟨rfl, rfl, rfl⟩

/-- C5: the constrained-scenario filter string round-trips: percent-decoding
the percent-encoded minified query returns the minified query, and parsing it
back recovers the same structured filter, with all AND/OR/diameter/albedo/
class terms intact. -/
theorem C5_constraint_roundtrip :
    unquote (quote (minify scenario1_query_raw)) = minify scenario1_query_raw ∧
    parse_sb_filter (unquote (quote (minify scenario1_query_raw))) =
      some scenario1_filter_form ∧
    quote (minify scenario1_query_raw) =
      "%7B%22AND%22%3A%5B%7B%22AND%22%3A%5B%22diameter%7CDF%22%2C%22albedo%7CDF%22%5D%7D%2C%7B%22OR%22%3A%5B%22class%7CNE%7CMBA%22%2C%22diameter%7CGE%7C10%22%5D%7D%5D%7D" :=
  ⟨rfl, rfl, rfl⟩

/-! ## Helper lemmas about the run trace -/

theorem major_bodies_dict_length : major_bodies_dict.length = 177 := rfl

theorem jpl_horizons_data_length (eph : BodyId → EphData) :
    (jpl_horizons_data eph).length = 177 := by
  rw [jpl_horizons_data, List.length_map, major_bodies_dict_length]

/-- The file lines written during the major-body phase: the header, then one
CSV line per catalog entry. -/
theorem file_lines_pre_events (o : String) (s : Scenario) (eph : BodyId → EphData) :
    file_lines (pre_events o s eph) =
      csv_line os_linesep header_row :: (jpl_horizons_data eph).map (csv_line os_linesep) := by
  rw [pre_events, file_lines]
  simp only [List.filterMap_cons, List.filterMap_append, List.filterMap_map]
  rw [show (List.filterMap
        ((fun e => match e with | Event.writeLine l => some l | _ => none) ∘
          (fun p => Event.netMajor p.1)) major_bodies_dict) = [] from
      List.filterMap_eq_nil_iff.mpr (fun p _ => rfl)]
  simp only [List.nil_append, List.filterMap_cons]
  rw [show (List.filterMap
        ((fun e => match e with | Event.writeLine l => some l | _ => none) ∘
          (fun r => Event.writeLine (csv_line os_linesep r))) (jpl_horizons_data eph)) =
      (jpl_horizons_data eph).map (csv_line os_linesep) from
    List.filterMap_eq_map_iff_forall_eq_some.mpr (fun r _ => rfl)]
  rfl

/-- No event of the major-body phase is the small-body request. -/
theorem pre_events_no_netSmall (o : String) (s : Scenario) (eph : BodyId → EphData) :
    (pre_events o s eph).all (fun e => !is_net_small e) = true := by
  refine List.all_eq_true.mpr (fun e he => ?_)
  rw [pre_events] at he
  simp only [List.mem_cons, List.mem_append, List.mem_map, List.mem_singleton,
    List.not_mem_nil, or_false] at he
  rcases he with rfl | rfl | (⟨p, -, rfl⟩ | ⟨r, -, rfl⟩) | rfl <;> rfl

/-- The statistics phase writes nothing to the file. -/
theorem file_lines_stats_events (rows : List (List String)) :
    file_lines (stats_events rows) = [] := by
  rw [stats_events]
  cases tally_rows orbit_classes_init rows <;> rfl

/-- Trace shape on a run whose arguments pass the sanity checks with
`--limit` absent (every scenario other than scenario2). -/
theorem run_no_limit (o : String) (s : Scenario) (eph : BodyId → EphData)
    (sb : SBResponse) (hs : s ≠ Scenario.scenario2) :
    run (Args.mk o s none) eph sb =
      pre_events o s eph ++ small_and_stats s none (jpl_horizons_data eph) sb := by
  rw [run]
  rw [if_neg (by simp), if_neg (by simp [hs])]

/-- Trace shape on a scenario2 run whose limit is below the minimum:
everything of the major-body phase happens, then the validation error. -/
theorem run_scenario2_low_limit (o : String) (eph : BodyId → EphData)
    (sb : SBResponse) (l : Int) (hl : l < 178) :
    run (Args.mk o Scenario.scenario2 (some l)) eph sb =
      pre_events o Scenario.scenario2 eph ++ [Event.fatal (limit_error_msg l 177)] := by
  have hlen : ((jpl_horizons_data eph).length : Int) = 177 := by
    rw [jpl_horizons_data_length]; rfl
  rw [run]
  rw [if_neg (by simp), if_neg (by simp)]
  show (if l < ((jpl_horizons_data eph).length : Int) + 1 then
      pre_events o Scenario.scenario2 eph ++
        [Event.fatal (limit_error_msg l (jpl_horizons_data eph).length)]
    else
      pre_events o Scenario.scenario2 eph ++
        small_and_stats Scenario.scenario2 (some (l - ((jpl_horizons_data eph).length : Int) - 1))
          (jpl_horizons_data eph) sb) = _
  rw [if_pos (show l < ((jpl_horizons_data eph).length : Int) + 1 by rw [hlen]; omega)]
  rw [jpl_horizons_data_length]

/-- Trace shape on a scenario2 run whose limit passes the minimum check. -/
theorem run_scenario2_ok_limit (o : String) (eph : BodyId → EphData)
    (sb : SBResponse) (l : Int) (hl : 178 ≤ l) :
    run (Args.mk o Scenario.scenario2 (some l)) eph sb =
      pre_events o Scenario.scenario2 eph ++
        small_and_stats Scenario.scenario2 (some (l - 177 - 1))
          (jpl_horizons_data eph) sb := by
  have hlen : ((jpl_horizons_data eph).length : Int) = 177 := by
    rw [jpl_horizons_data_length]; rfl
  rw [run]
  rw [if_neg (by simp), if_neg (by simp)]
  show (if l < ((jpl_horizons_data eph).length : Int) + 1 then
      pre_events o Scenario.scenario2 eph ++
        [Event.fatal (limit_error_msg l (jpl_horizons_data eph).length)]
    else
      pre_events o Scenario.scenario2 eph ++
        small_and_stats Scenario.scenario2 (some (l - ((jpl_horizons_data eph).length : Int) - 1))
          (jpl_horizons_data eph) sb) = _
  rw [if_neg (show ¬ l < ((jpl_horizons_data eph).length : Int) + 1 by rw [hlen]; omega)]
  rw [hlen]

/-! ## Claims about argument validation timing (C2, C4) -/

/-- C2, counterexample: a scenario2 run with limit 5 (below the minimum 178)
DOES perform network activity — the Horizons request for body 199 is in the
trace — before the validation failure that ends the run.  The below-minimum
check happens only after the whole major-body fetch loop, so this validation
failure is not reported before network activity. -/
theorem C2_counterexample :
    (run (Args.mk "out.csv" Scenario.scenario2 (some 5)) const_eph
        (SBResponse.mk 200 [])).getLast? = some (Event.fatal (limit_error_msg 5 177)) ∧
    Event.netMajor (BodyId.num 199) ∈
      run (Args.mk "out.csv" Scenario.scenario2 (some 5)) const_eph (SBResponse.mk 200 []) := by
  rw [run_scenario2_low_limit _ _ _ _ (by omega)]
  constructor
  · rw [List.getLast?_append_of_ne_nil _ (by simp)]
    rfl
  · refine List.mem_append_left _ ?_
    rw [pre_events]
    refine List.mem_cons_of_mem _ (List.mem_cons_of_mem _ (List.mem_append_left _ (List.mem_append_left _ ?_)))
    exact List.mem_map.mpr
      ⟨(BodyId.num 199, Body.mk "Mercury" "PLA" "Sun" "3.301011e+23"),
        (show (BodyId.num 199, Body.mk "Mercury" "PLA" "Sun" "3.301011e+23") ∈
          major_bodies_dict by decide), rfl⟩

/-- C2, amended: the two argument-consistency failures (limit given without
scenario2, scenario2 without limit) are reported immediately, before any
network activity — the trace is just the error.  The third validation failure
(limit below the minimum) is reported only after all major-body network
fetches, though still before the small-body catalog request. -/
theorem C2_validation_timing (args : Args) (eph : BodyId → EphData)
    (sb : SBResponse) (l : Int) :
    (args.scenario ≠ Scenario.scenario2 → args.limit.isSome →
      run args eph sb =
        [Event.fatal "-l/--limit may only be used with -s/--scenario scenario2"]) ∧
    (args.scenario = Scenario.scenario2 → args.limit = none →
      run args eph sb =
        [Event.fatal "-l/--limit must be provided for -s/--scenario scenario2"]) ∧
    (args.scenario = Scenario.scenario2 → args.limit = some l → l < 178 →
      (run args eph sb).getLast? = some (Event.fatal (limit_error_msg l 177)) ∧
      Event.netMajor (BodyId.num 199) ∈ run args eph sb ∧
      (run args eph sb).all (fun e => !is_net_small e) = true) := by
  obtain ⟨o, sc, lim⟩ := args
  refine ⟨fun h1 h2 => ?_, fun h1 h2 => ?_, fun h1 h2 h3 => ?_⟩
  · rw [run]
    rw [if_pos ⟨h1, h2⟩]
  · simp only at h1 h2
    subst h1; subst h2
    rw [run]
    rw [if_neg (by simp), if_pos (by simp)]
  · simp only at h1 h2
    subst h1; subst h2
    rw [run_scenario2_low_limit _ _ _ _ h3]
    refine ⟨?_, ?_, ?_⟩
    · rw [List.getLast?_append_of_ne_nil _ (by simp)]
      rfl
    · refine List.mem_append_left _ ?_
      rw [pre_events]
      refine List.mem_cons_of_mem _ (List.mem_cons_of_mem _ (List.mem_append_left _ (List.mem_append_left _ ?_)))
      exact List.mem_map.mpr
        ⟨(BodyId.num 199, Body.mk "Mercury" "PLA" "Sun" "3.301011e+23"),
          (show (BodyId.num 199, Body.mk "Mercury" "PLA" "Sun" "3.301011e+23") ∈
            major_bodies_dict by decide), rfl⟩
    · rw [List.all_append, Bool.and_eq_true]
      exact And.intro (pre_events_no_netSmall o Scenario.scenario2 eph) rfl

/-- Witness for `C2_validation_timing` at concrete inputs: limit with the
full scenario, scenario2 without limit, and scenario2 with limit 100. -/
theorem C2_validation_timing_witness :
    run (Args.mk "a.csv" Scenario.full (some 3)) const_eph (SBResponse.mk 200 []) =
      [Event.fatal "-l/--limit may only be used with -s/--scenario scenario2"] ∧
    run (Args.mk "b.csv" Scenario.scenario2 none) const_eph (SBResponse.mk 200 []) =
      [Event.fatal "-l/--limit must be provided for -s/--scenario scenario2"] ∧
    ((run (Args.mk "c.csv" Scenario.scenario2 (some 100)) const_eph
        (SBResponse.mk 200 [])).getLast? = some (Event.fatal (limit_error_msg 100 177)) ∧
      Event.netMajor (BodyId.num 199) ∈
        run (Args.mk "c.csv" Scenario.scenario2 (some 100)) const_eph (SBResponse.mk 200 []) ∧
      (run (Args.mk "c.csv" Scenario.scenario2 (some 100)) const_eph
        (SBResponse.mk 200 [])).all (fun e => !is_net_small e) = true) :=
  ⟨(C2_validation_timing _ const_eph _ 0).1 (by decide) rfl,
   (C2_validation_timing _ const_eph _ 0).2.1 rfl rfl,
   (C2_validation_timing _ const_eph _ 100).2.2 rfl rfl (by omega)⟩

/-- C4: for scenario2 with limit `l` and `N` fetched major bodies, a limit
below `N + 1` ends the run with a validation error whose message names the
minimum `N + 1`, and otherwise the record-count cap sent to the small-body
catalog equals `l - N - 1`. -/
theorem C4_scenario2_limit (o : String) (eph : BodyId → EphData)
    (sb : SBResponse) (l : Int) :
    (l < ((jpl_horizons_data eph).length : Int) + 1 →
      (run (Args.mk o Scenario.scenario2 (some l)) eph sb).getLast? =
        some (Event.fatal ("-l/--limit (" ++ toString l ++
          ") must be at least as large as the number of planets and moons + 1 (accounting for the Sun) which is " ++
          toString ((jpl_horizons_data eph).length + 1) ++ "!"))) ∧
    (((jpl_horizons_data eph).length : Int) + 1 ≤ l →
      Event.netSmall (sb_query_url ("&limit=" ++
          toString (l - ((jpl_horizons_data eph).length : Int) - 1))) ∈
        run (Args.mk o Scenario.scenario2 (some l)) eph sb) := by
  have hlen : ((jpl_horizons_data eph).length : Int) = 177 := by
    rw [jpl_horizons_data_length]; rfl
  constructor
  · intro h
    rw [run_scenario2_low_limit _ _ _ _ (by omega)]
    rw [List.getLast?_append_of_ne_nil _ (by simp)]
    rw [jpl_horizons_data_length]
    rfl
  · intro h
    rw [hlen]
    rw [run_scenario2_ok_limit _ _ _ _ (by omega)]
    refine List.mem_append_right _ ?_
    have hsmall : small_and_stats Scenario.scenario2 (some (l - 177 - 1))
        (jpl_horizons_data eph) sb =
        Event.netSmall (sb_query_url ("&limit=" ++ toString (l - 177 - 1))) ::
        (if sb.status_code ≠ 200 then
          [Event.fatal (request_error_msg sb.status_code)]
        else
          sb.data.map (fun r => Event.writeLine (csv_line small_lineterminator r)) ++
          [Event.printTiming "NASA JPL Small Body Database"] ++
          stats_events (jpl_horizons_data eph ++ sb.data)) := by
      rw [small_and_stats]
      rw [if_neg (by decide)]
      rfl
    rw [hsmall]
    exact List.mem_cons_self _ _

/-- Witness for `C4_scenario2_limit`: limit 5 is rejected naming 178, and
limit 200 yields a cap of 22. -/
theorem C4_scenario2_limit_witness :
    (run (Args.mk "w.csv" Scenario.scenario2 (some 5)) const_eph
        (SBResponse.mk 200 [])).getLast? =
      some (Event.fatal ("-l/--limit (" ++ toString (5 : Int) ++
        ") must be at least as large as the number of planets and moons + 1 (accounting for the Sun) which is " ++
        toString ((jpl_horizons_data const_eph).length + 1) ++ "!")) ∧
    Event.netSmall (sb_query_url ("&limit=" ++
        toString ((200 : Int) - ((jpl_horizons_data const_eph).length : Int) - 1))) ∈
      run (Args.mk "w.csv" Scenario.scenario2 (some 200)) const_eph (SBResponse.mk 200 []) :=
  ⟨(C4_scenario2_limit "w.csv" const_eph _ 5).1
      (by rw [jpl_horizons_data_length]; omega),
   (C4_scenario2_limit "w.csv" const_eph _ 200).2
      (by rw [jpl_horizons_data_length]; omega)⟩

/-! ## Claims about the planets_and_moons run (C3, C9) -/

theorem file_lines_append (a b : List Event) :
    file_lines (a ++ b) = file_lines a ++ file_lines b :=
  List.filterMap_append a b _

/-- The class code of a major-body row comes from its catalog entry alone, so
tallying the produced rows is tallying the catalog's class codes. -/
theorem tally_rows_map_horizons (eph : BodyId → EphData)
    (t : List (String × String × Nat)) (l : List (BodyId × Body)) :
    tally_rows t (l.map (fun p => horizons_row eph p.1 p.2)) =
      tally_codes t (l.map (fun p => p.2.orbit_class)) := by
  induction l generalizing t with
  | nil => rfl
  | cons p rest ih =>
    show (match tally_step t p.2.orbit_class with
      | none => none
      | some t2 => tally_rows t2 (rest.map (fun (q : BodyId × Body) => horizons_row eph q.1 q.2))) =
      (match tally_step t p.2.orbit_class with
      | none => none
      | some t2 => tally_codes t2 (rest.map (fun (q : BodyId × Body) => q.2.orbit_class)))
    cases tally_step t p.2.orbit_class with
    | none => rfl
    | some t2 => exact ih t2

/-- Trace shape of a planets_and_moons run: the major-body phase, then the
statistics (the small-body phase is skipped entirely). -/
theorem run_planets_and_moons (o : String) (eph : BodyId → EphData) (sb : SBResponse) :
    run (Args.mk o Scenario.planets_and_moons none) eph sb =
      pre_events o Scenario.planets_and_moons eph ++
        stats_events (jpl_horizons_data eph) := by
  rw [run_no_limit _ _ _ _ (by decide)]
  rw [small_and_stats, if_pos rfl]

/-- The orbit-class tally of the full catalog: 8 planets, 10 dwarf planets,
159 moons, and no asteroid of any class. -/
theorem tally_rows_catalog (eph : BodyId → EphData) :
    tally_rows orbit_classes_init (jpl_horizons_data eph) =
      some [("PLA", "Planets", 8), ("DWA", "Dwarf Planets", 10), ("SAT", "Moons", 159),
            ("IEO", "Atira", 0), ("ATE", "Aten", 0), ("APO", "Apollo", 0),
            ("AMO", "Amor", 0), ("MCA", "Mars-crossing Asteroid", 0),
            ("IMB", "Inner Main-belt Asteroid", 0), ("MBA", "Main-belt Asteroid", 0),
            ("OMB", "Outer Main-belt Asteroid", 0), ("TJN", "Jupiter Trojan", 0),
            ("AST", "Asteroid", 0), ("CEN", "Centaur", 0),
            ("TNO", "TransNeptunian Object", 0), ("PAA", "Parabolic \"Asteroid\"", 0),
            ("HYA", "Hyperbolic \"Asteroid\"", 0)] := by
  rw [jpl_horizons_data, tally_rows_map_horizons]
  rfl

/-- The statistics events of a planets_and_moons run, fully evaluated. -/
theorem stats_events_catalog (eph : BodyId → EphData) :
    stats_events (jpl_horizons_data eph) =
      [Event.printMsg "",
       Event.printTable
         [("PLA (Planets)", 8), ("DWA (Dwarf Planets)", 10), ("SAT (Moons)", 159),
          ("IEO (Atira)", 0), ("ATE (Aten)", 0), ("APO (Apollo)", 0), ("AMO (Amor)", 0),
          ("MCA (Mars-crossing Asteroid)", 0), ("IMB (Inner Main-belt Asteroid)", 0),
          ("MBA (Main-belt Asteroid)", 0), ("OMB (Outer Main-belt Asteroid)", 0),
          ("TJN (Jupiter Trojan)", 0), ("AST (Asteroid)", 0), ("CEN (Centaur)", 0),
          ("TNO (TransNeptunian Object)", 0), ("PAA (Parabolic \"Asteroid\")", 0),
          ("HYA (Hyperbolic \"Asteroid\")", 0)],
       Event.printMsg "",
       Event.printMsg "Total number of bodies is 177 + 1 (Sun) = 178."] := by
  rw [stats_events, tally_rows_catalog]
  rfl

/-- C3, counterexample: the built-in catalog has 177 entries (not 171), with
10 dwarf planets (not 9), and a planets_and_moons run writes 178 file lines
(header plus 177 data rows) and prints a total line reading "= 178", not one
reading "= 172". -/
theorem C3_counterexample :
    major_bodies_dict.length = 177 ∧
    major_bodies_dict.length ≠ 171 ∧
    major_bodies_dict.countP (fun p => p.2.orbit_class == "DWA") = 10 ∧
    (file_lines (run (Args.mk "pm.csv" Scenario.planets_and_moons none) const_eph
        (SBResponse.mk 200 []))).length = 178 ∧
    (run (Args.mk "pm.csv" Scenario.planets_and_moons none) const_eph
        (SBResponse.mk 200 [])).getLast? =
      some (Event.printMsg "Total number of bodies is 177 + 1 (Sun) = 178.") ∧
    (run (Args.mk "pm.csv" Scenario.planets_and_moons none) const_eph
        (SBResponse.mk 200 [])).getLast? ≠
      some (Event.printMsg "Total number of bodies is 171 + 1 (Sun) = 172.") := by
  have hrun := run_planets_and_moons "pm.csv" const_eph (SBResponse.mk 200 [])
  have hlast : (run (Args.mk "pm.csv" Scenario.planets_and_moons none) const_eph
      (SBResponse.mk 200 [])).getLast? =
      some (Event.printMsg "Total number of bodies is 177 + 1 (Sun) = 178.") := by
    rw [hrun, List.getLast?_append_of_ne_nil _ (by rw [stats_events_catalog]; simp),
      stats_events_catalog]
    rfl
  refine ⟨rfl, by decide, by decide, ?_, hlast, ?_⟩
  · rw [hrun, file_lines_append, file_lines_pre_events, file_lines_stats_events,
      List.append_nil, List.length_cons, List.length_map, jpl_horizons_data_length]
  · rw [hlast]
    intro h
    simp only [Option.some.injEq, Event.printMsg.injEq] at h
    exact absurd h (by decide)

/-- C3, amended: invoking with scenario = planets_and_moons on the built-in
catalog of 177 known bodies (8 planets + 10 dwarf planets + 159 moons)
produces exactly 177 data rows after the header, a total-bodies line reading
"... = 178" (177 + 1 for the Sun), and every row's orbit-class code is in
\x7bPLA, DWA, SAT\x7d. -/
theorem C3_planets_and_moons_output (o : String) (eph : BodyId → EphData)
    (sb : SBResponse) :
    file_lines (run (Args.mk o Scenario.planets_and_moons none) eph sb) =
      csv_line os_linesep header_row :: (jpl_horizons_data eph).map (csv_line os_linesep) ∧
    (jpl_horizons_data eph).length = 177 ∧
    major_bodies_dict.countP (fun p => p.2.orbit_class == "PLA") = 8 ∧
    major_bodies_dict.countP (fun p => p.2.orbit_class == "DWA") = 10 ∧
    major_bodies_dict.countP (fun p => p.2.orbit_class == "SAT") = 159 ∧
    (jpl_horizons_data eph).all (fun r =>
      r.get? 10 == some "PLA" || r.get? 10 == some "DWA" || r.get? 10 == some "SAT") = true ∧
    (run (Args.mk o Scenario.planets_and_moons none) eph sb).getLast? =
      some (Event.printMsg "Total number of bodies is 177 + 1 (Sun) = 178.") := by
  have hrun := run_planets_and_moons o eph sb
  refine ⟨?_, jpl_horizons_data_length eph, by decide, by decide, by decide, ?_, ?_⟩
  · rw [hrun, file_lines_append, file_lines_pre_events, file_lines_stats_events,
      List.append_nil]
  · have hall : ∀ p ∈ major_bodies_dict,
        (p.2.orbit_class == "PLA" || p.2.orbit_class == "DWA" ||
          p.2.orbit_class == "SAT") = true :=
      List.all_eq_true.mp (by decide)
    refine List.all_eq_true.mpr (fun r hr => ?_)
    obtain ⟨p, hp, rfl⟩ := List.mem_map.mp hr
    exact hall p hp
  · rw [hrun, List.getLast?_append_of_ne_nil _ (by rw [stats_events_catalog]; simp),
      stats_events_catalog]
    rfl

/-! ## C9: content of the major-body rows; C10: file state at transport failure -/

/-- C9: for major_bodies_only mode (planets_and_moons) the output file is the
header line followed by exactly one data row per Mass Catalog entry, in
catalog iteration order; each row has empty absolute-magnitude, albedo and
diameter fields (indices 7, 8, 9) and carries the catalog entry's mass (index
12) and central body (index 13), both of which are non-empty for every
catalog entry. -/
theorem C9_major_bodies_only_rows (o : String) (eph : BodyId → EphData) (sb : SBResponse) :
    file_lines (run (Args.mk o Scenario.planets_and_moons none) eph sb) =
      csv_line os_linesep header_row :: (jpl_horizons_data eph).map (csv_line os_linesep) ∧
    jpl_horizons_data eph = major_bodies_dict.map (fun p => horizons_row eph p.1 p.2) ∧
    major_bodies_dict.all (fun p =>
      ((horizons_row eph p.1 p.2).get? 7 == some "") &&
      ((horizons_row eph p.1 p.2).get? 8 == some "") &&
      ((horizons_row eph p.1 p.2).get? 9 == some "") &&
      ((horizons_row eph p.1 p.2).get? 12 == some p.2.mass) &&
      ((horizons_row eph p.1 p.2).get? 13 == some p.2.central_body)) = true ∧
    major_bodies_dict.all (fun p =>
      !(p.2.mass == "") && !(p.2.central_body == "")) = true := by
  refine ⟨?_, rfl, ?_, by decide⟩
  · rw [run_planets_and_moons, file_lines_append, file_lines_pre_events,
      file_lines_stats_events, List.append_nil]
  · refine List.all_eq_true.mpr (fun p _ => ?_)
    rw [show (horizons_row eph p.1 p.2).get? 7 = some "" from rfl,
      show (horizons_row eph p.1 p.2).get? 8 = some "" from rfl,
      show (horizons_row eph p.1 p.2).get? 9 = some "" from rfl,
      show (horizons_row eph p.1 p.2).get? 12 = some p.2.mass from rfl,
      show (horizons_row eph p.1 p.2).get? 13 = some p.2.central_body from rfl]
    simp

/-- C10: if the small-body catalog request returns a non-200 status, the run
ends with the transport error and the file at that point already holds the
header row and every major-body row — all writes of the major-body phase
precede the small-body request in the trace, and nothing is written after
it. -/
theorem C10_transport_failure_file_state (args : Args) (eph : BodyId → EphData)
    (sb : SBResponse)
    (h1 : args.scenario ≠ Scenario.planets_and_moons)
    (h2 : args.scenario = Scenario.scenario2 ↔ args.limit.isSome = true)
    (h3 : ∀ l : Int, args.limit = some l → ((jpl_horizons_data eph).length : Int) + 1 ≤ l)
    (h4 : sb.status_code ≠ 200) :
    (∃ u, run args eph sb =
      pre_events args.output args.scenario eph ++
        [Event.netSmall u, Event.fatal (request_error_msg sb.status_code)]) ∧
    file_lines (run args eph sb) =
      csv_line os_linesep header_row :: (jpl_horizons_data eph).map (csv_line os_linesep) ∧
    file_lines ((run args eph sb).takeWhile (fun e => !is_net_small e)) =
      file_lines (run args eph sb) := by
  obtain ⟨o, sc, lim⟩ := args
  simp only at h1 h2 h3
  have hrun : ∃ u, run (Args.mk o sc lim) eph sb =
      pre_events o sc eph ++
        [Event.netSmall u, Event.fatal (request_error_msg sb.status_code)] := by
    cases sc with
    | planets_and_moons => exact absurd rfl h1
    | scenario1 =>
      have hlim : lim = none := by
        cases lim with
        | none => rfl
        | some l => exact absurd (h2.mpr rfl) (by decide)
      subst hlim
      refine ⟨sb_query_url scenario1_constraint, ?_⟩
      rw [run_no_limit _ _ _ _ (by decide)]
      rw [small_and_stats, if_neg (by decide), if_pos h4]
      rfl
    | full =>
      have hlim : lim = none := by
        cases lim with
        | none => rfl
        | some l => exact absurd (h2.mpr rfl) (by decide)
      subst hlim
      refine ⟨sb_query_url "", ?_⟩
      rw [run_no_limit _ _ _ _ (by decide)]
      rw [small_and_stats, if_neg (by decide), if_pos h4]
      rfl
    | scenario2 =>
      obtain ⟨l, hl⟩ := Option.isSome_iff_exists.mp (h2.mp rfl)
      subst hl
      have hbound := h3 l rfl
      have hlen : ((jpl_horizons_data eph).length : Int) = 177 := by
        rw [jpl_horizons_data_length]; rfl
      refine ⟨sb_query_url ("&limit=" ++ toString (l - 177 - 1)), ?_⟩
      rw [run_scenario2_ok_limit _ _ _ _ (by omega)]
      rw [small_and_stats, if_neg (by decide), if_pos h4]
      rfl
  obtain ⟨u, hr⟩ := hrun
  refine ⟨⟨u, hr⟩, ?_, ?_⟩
  · rw [hr, file_lines_append, file_lines_pre_events]
    rw [show file_lines [Event.netSmall u, Event.fatal (request_error_msg sb.status_code)]
        = [] from rfl, List.append_nil]
  · rw [hr, List.takeWhile_append_of_pos
      (List.all_eq_true.mp (pre_events_no_netSmall o sc eph))]
    rw [show ([Event.netSmall u,
        Event.fatal (request_error_msg sb.status_code)].takeWhile
          (fun e => !is_net_small e)) = [] from rfl]
    rw [file_lines_append, file_lines_append]
    rw [show file_lines [Event.netSmall u, Event.fatal (request_error_msg sb.status_code)]
        = [] from rfl]
    rfl

/-- Witness for `C10_transport_failure_file_state`: a full-scenario run whose
small-body request returns status 404. -/
theorem C10_transport_failure_witness :
    (∃ u, run (Args.mk "f.csv" Scenario.full none) const_eph (SBResponse.mk 404 []) =
      pre_events "f.csv" Scenario.full const_eph ++
        [Event.netSmall u, Event.fatal (request_error_msg 404)]) ∧
    file_lines (run (Args.mk "f.csv" Scenario.full none) const_eph (SBResponse.mk 404 [])) =
      csv_line os_linesep header_row ::
        (jpl_horizons_data const_eph).map (csv_line os_linesep) ∧
    file_lines ((run (Args.mk "f.csv" Scenario.full none) const_eph
        (SBResponse.mk 404 [])).takeWhile (fun e => !is_net_small e)) =
      file_lines (run (Args.mk "f.csv" Scenario.full none) const_eph (SBResponse.mk 404 [])) :=
  C10_transport_failure_file_state (Args.mk "f.csv" Scenario.full none) const_eph
    (SBResponse.mk 404 []) (by decide) (by decide)
    (fun l h => Option.noConfusion h) (by decide)

/-! ## C6, C7: the statistics tally -/

theorem tally_rows_cons_fail1 (t : List (String × String × Nat)) (row : List String)
    (rest : List (List String)) (hg : row.get? 10 = none) :
    tally_rows t (row :: rest) = none := by
  simp only [tally_rows, hg]

theorem tally_rows_cons_fail2 (t : List (String × String × Nat)) (row : List String)
    (rest : List (List String)) (c : String) (hg : row.get? 10 = some c)
    (hs : tally_step t c = none) :
    tally_rows t (row :: rest) = none := by
  simp only [tally_rows, hg, hs]

theorem tally_rows_cons_step (t t2 : List (String × String × Nat)) (row : List String)
    (rest : List (List String)) (c : String) (hg : row.get? 10 = some c)
    (hs : tally_step t c = some t2) :
    tally_rows t (row :: rest) = tally_rows t2 rest := by
  simp only [tally_rows, hg, hs]

theorem tally_step_none_iff (t : List (String × String × Nat)) (c : String) :
    tally_step t c = none ↔ t.any (fun x => x.1 == c) = false := by
  induction t with
  | nil => simp [tally_step]
  | cons x rest ih =>
    obtain ⟨c1, l1, n1⟩ := x
    by_cases h : c1 = c
    · simp [tally_step, h]
    · simp [tally_step, h, Option.map_eq_none', ih]

theorem tally_step_some_eq (t : List (String × String × Nat)) (c : String)
    (t2 : List (String × String × Nat))
    (hnd : (t.map (fun x => x.1)).Nodup) (h : tally_step t c = some t2) :
    t2 = t.map (fun x => if x.1 = c then (x.1, x.2.1, x.2.2 + 1) else x) := by
  induction t generalizing t2 with
  | nil => exact Option.noConfusion h
  | cons x rest ih =>
    obtain ⟨c1, l1, n1⟩ := x
    rw [List.map_cons, List.nodup_cons] at hnd
    simp only [tally_step] at h
    by_cases hc : c1 = c
    · rw [if_pos hc] at h
      injection h with h2
      subst h2
      rw [List.map_cons, if_pos hc]
      refine congrArg _ ?_
      have hfix : ∀ x ∈ rest, (if (x : String × String × Nat).1 = c then
          (x.1, x.2.1, x.2.2 + 1) else x) = x := by
        intro x hx
        rw [if_neg]
        intro hxc
        have hmem : x.1 ∈ rest.map (fun y => y.1) :=
          List.mem_map_of_mem (fun y => y.1) hx
        rw [hxc, ← hc] at hmem
        exact hnd.1 hmem
      rw [List.map_congr_left hfix, List.map_id']
    · rw [if_neg hc] at h
      cases hrec : tally_step rest c with
      | none => rw [hrec] at h; exact Option.noConfusion h
      | some r =>
        rw [hrec, Option.map_some'] at h
        injection h with h2
        subst h2
        rw [List.map_cons, if_neg hc]
        exact congrArg _ (ih r hnd.2 hrec)

theorem keys_bump (t : List (String × String × Nat)) (c : String) :
    (t.map (fun x => if x.1 = c then (x.1, x.2.1, x.2.2 + 1) else x)).map
        (fun x => x.1) = t.map (fun x => x.1) := by
  rw [List.map_map]
  exact List.map_congr_left (fun x _ => by by_cases h : x.1 = c <;> simp [h])

theorem any_keys_map (t : List (String × String × Nat)) (c : String) :
    (t.map (fun x => x.1)).any (fun k => k == c) = t.any (fun x => x.1 == c) := by
  induction t with
  | nil => rfl
  | cons x rest ih => simp only [List.map_cons, List.any_cons, ih]

/-- Full characterisation of the statistics loop on a counter table with
distinct keys: it succeeds exactly when every record's class code is a known
key, and then each counter has grown by the number of records bearing its
code. -/
theorem tally_rows_eq (rows : List (List String)) :
    ∀ t : List (String × String × Nat), (t.map (fun x => x.1)).Nodup →
      tally_rows t rows =
        (if rows.all (known_code (t.map (fun x => x.1))) then
          some (t.map (fun x =>
            (x.1, x.2.1, x.2.2 + rows.countP (fun r => r.get? 10 == some x.1))))
        else none) := by
  induction rows with
  | nil =>
    intro t _
    rw [List.all_nil, if_pos rfl, show tally_rows t [] = some t from rfl]
    refine congrArg some ?_
    have hfix : ∀ x ∈ t, (x.1, x.2.1, x.2.2 +
        List.countP (fun (r : List String) => r.get? 10 == some x.1) []) = x := by
      intro x _
      rw [List.countP_nil]
      simp
    rw [List.map_congr_left hfix, List.map_id']
  | cons row rest ih =>
    intro t hnd
    cases hg : row.get? 10 with
    | none =>
      have hkc : known_code (t.map (fun x => x.1)) row = false := by
        simp only [known_code, hg]
      rw [List.all_cons, hkc, Bool.false_and, if_neg (by simp),
        tally_rows_cons_fail1 t row rest hg]
    | some c =>
      have hkc : known_code (t.map (fun x => x.1)) row =
          t.any (fun x => x.1 == c) := by
        simp only [known_code, hg]
        exact any_keys_map t c
      cases hs : tally_step t c with
      | none =>
        have hany := (tally_step_none_iff t c).mp hs
        rw [List.all_cons, hkc, hany, Bool.false_and, if_neg (by simp),
          tally_rows_cons_fail2 t row rest c hg hs]
      | some t2 =>
        have hany : t.any (fun x => x.1 == c) = true := by
          cases hb : t.any (fun x => x.1 == c) with
          | false =>
            rw [(tally_step_none_iff t c).mpr hb] at hs
            exact Option.noConfusion hs
          | true => rfl
        have ht2 := tally_step_some_eq t c t2 hnd hs
        have hkeys : t2.map (fun x => x.1) = t.map (fun x => x.1) := by
          rw [ht2]; exact keys_bump t c
        have hnd2 : (t2.map (fun x => x.1)).Nodup := by rw [hkeys]; exact hnd
        rw [tally_rows_cons_step t t2 row rest c hg hs, ih t2 hnd2, hkeys,
          List.all_cons, hkc, hany, Bool.true_and]
        by_cases hall : rest.all (known_code (t.map (fun x => x.1))) = true
        · rw [if_pos hall, if_pos hall]
          refine congrArg some ?_
          rw [ht2, List.map_map]
          refine List.map_congr_left (fun x _ => ?_)
          by_cases hx : x.1 = c
          · have hp : (row.get? 10 == some x.1) = true := by
              rw [hg]
              exact beq_iff_eq.mpr (congrArg some hx.symm)
            simp only [Function.comp_apply]
            rw [if_pos hx, List.countP_cons, hp]
            exact congrArg (fun n => (x.1, x.2.1, n))
              (show x.2.2 + 1 + List.countP (fun r => r.get? 10 == some x.1) rest =
                x.2.2 + (List.countP (fun r => r.get? 10 == some x.1) rest + 1) by omega)
          · have hp : (row.get? 10 == some x.1) = false := by
              rw [hg]
              exact beq_eq_false_iff_ne.mpr (fun he => hx (Option.some.inj he).symm)
            simp only [Function.comp_apply]
            rw [if_neg hx, List.countP_cons, hp]
            exact congrArg (fun n => (x.1, x.2.1, n))
              (show x.2.2 + List.countP (fun r => r.get? 10 == some x.1) rest =
                x.2.2 + (List.countP (fun r => r.get? 10 == some x.1) rest + 0) by omega)
        · rw [if_neg hall, if_neg hall]

/-- C6: the statistics step starts from the fixed table of 17 orbit-class
counters all at zero; processing the records increments, for every record,
exactly the counter whose code matches the record's class field (each final
counter equals the number of records bearing its code), and the tally fails
with a lookup error if and only if some record bears a code outside the
17-code enumeration. -/
theorem C6_statistics_tally (rows : List (List String))
    (_h10 : rows.all (fun r => decide (10 < r.length)) = true) :
    (orbit_classes_init.length = 17 ∧
      orbit_classes_init.all (fun x => x.2.2 == 0) = true) ∧
    tally_rows orbit_classes_init rows =
      (if rows.all (known_code (orbit_classes_init.map (fun x => x.1))) then
        some (orbit_classes_init.map (fun x =>
          (x.1, x.2.1, x.2.2 + rows.countP (fun r => r.get? 10 == some x.1))))
      else none) ∧
    (tally_rows orbit_classes_init rows = none ↔
      rows.all (known_code (orbit_classes_init.map (fun x => x.1))) = false) := by
  have heq := tally_rows_eq rows orbit_classes_init (by decide)
  refine ⟨⟨rfl, rfl⟩, heq, ?_⟩
  rw [heq]
  by_cases hall : rows.all (known_code (orbit_classes_init.map (fun x => x.1))) = true
  · rw [if_pos hall, hall]
    simp
  · rw [if_neg hall]
    simp only [Bool.not_eq_true] at hall
    rw [hall]
    simp

theorem sum_tally_step (t : List (String × String × Nat)) (c : String)
    (t2 : List (String × String × Nat)) (h : tally_step t c = some t2) :
    (t2.map (fun x => x.2.2)).sum = (t.map (fun x => x.2.2)).sum + 1 := by
  induction t generalizing t2 with
  | nil => exact Option.noConfusion h
  | cons x rest ih =>
    obtain ⟨c1, l1, n1⟩ := x
    simp only [tally_step] at h
    by_cases hc : c1 = c
    · rw [if_pos hc] at h
      injection h with h2
      subst h2
      simp only [List.map_cons, List.sum_cons]
      omega
    · rw [if_neg hc] at h
      cases hrec : tally_step rest c with
      | none => rw [hrec] at h; exact Option.noConfusion h
      | some r =>
        rw [hrec, Option.map_some'] at h
        injection h with h2
        subst h2
        simp only [List.map_cons, List.sum_cons]
        have := ih r hrec
        omega

theorem sum_tally_rows (rows : List (List String)) :
    ∀ t t2, tally_rows t rows = some t2 →
      (t2.map (fun x => x.2.2)).sum = (t.map (fun x => x.2.2)).sum + rows.length := by
  induction rows with
  | nil =>
    intro t t2 h
    rw [show tally_rows t [] = some t from rfl] at h
    injection h with h2
    subst h2
    simp
  | cons row rest ih =>
    intro t t2 h
    cases hg : row.get? 10 with
    | none =>
      rw [tally_rows_cons_fail1 t row rest hg] at h
      exact Option.noConfusion h
    | some c =>
      cases hs : tally_step t c with
      | none =>
        rw [tally_rows_cons_fail2 t row rest c hg hs] at h
        exact Option.noConfusion h
      | some tm =>
        rw [tally_rows_cons_step t tm row rest c hg hs] at h
        have h1 := ih tm t2 h
        have h2 := sum_tally_step t c tm hs
        rw [List.length_cons]
        omega

/-- C7: the printed total body count is exactly the sum of all 17 orbit-class
counters (which equals the number of produced records), and the printed grand
total is that sum plus one for the implicit Sun. -/
theorem C7_printed_totals (rows : List (List String))
    (t : List (String × String × Nat))
    (h : tally_rows orbit_classes_init rows = some t) :
    total_line t = "Total number of bodies is " ++ toString (total_number_of_bodies t) ++
      " + 1 (Sun) = " ++ toString (total_number_of_bodies t + 1) ++ "." ∧
    total_number_of_bodies t = rows.length := by
  refine ⟨rfl, ?_⟩
  have hsum := sum_tally_rows rows orbit_classes_init t h
  rw [total_number_of_bodies, hsum]
  rw [show ((orbit_classes_init.map (fun x => x.2.2)).sum) = 0 from rfl]
  omega

/-! ## C8: shape of the written small-body rows -/

theorem split_commas_chars_append_free (g cs : List Char)
    (hg : ∀ ch ∈ g, ch ≠ ',') :
    split_commas_chars (g ++ cs) =
      (g ++ (split_commas_chars cs).1, (split_commas_chars cs).2) := by
  induction g with
  | nil => simp
  | cons ch gt ih =>
    have hch : ch ≠ ',' := hg ch (List.mem_cons_self _ _)
    simp only [List.cons_append, split_commas_chars]
    rw [if_neg hch, show (gt.append cs) = gt ++ cs from rfl,
      ih (fun c hc => hg c (List.mem_cons_of_mem _ hc))]

theorem csv_quote_field_id (f : String)
    (h : ∀ ch ∈ f.data, ch ≠ ',' ∧ ch ≠ '"' ∧ ch ≠ '\n' ∧ ch ≠ '\x0d') :
    csv_quote_field f = f := by
  rw [csv_quote_field, if_neg]
  intro hany
  obtain ⟨c, hc, hcp⟩ := List.any_eq_true.mp hany
  obtain ⟨h1, h2, h3, h4⟩ := h c hc
  exact absurd hcp (by simp [h1, h2, h3, h4])

/-- Splitting a comma-joined list of comma-free fields followed by `,,`
recovers the fields plus two empty trailing fields. -/
theorem split_commas_csv_join (fields : List String) :
    fields ≠ [] → (∀ f ∈ fields, ∀ ch ∈ f.data, ch ≠ ',') →
    split_commas (csv_join fields ++ ",,") = fields ++ ["", ""] := by
  induction fields with
  | nil => intro hne _; exact absurd rfl hne
  | cons f rest ih =>
    intro _ hfree
    have hf : ∀ ch ∈ f.data, ch ≠ ',' :=
      fun ch hch => hfree f (List.mem_cons_self _ _) ch hch
    cases rest with
    | nil =>
      rw [show csv_join [f] = f from rfl]
      rw [split_commas]
      rw [show ((f ++ ",,").data) = f.data ++ [',', ','] from by
        rw [String.data_append]]
      rw [split_commas_chars_append_free f.data [',', ','] hf]
      rw [show split_commas_chars [',', ','] = ([], [[], []]) from rfl]
      show String.mk (f.data ++ []) :: [String.mk [], String.mk []] = [f, "", ""]
      rw [List.append_nil, show String.mk f.data = f from by cases f; rfl]
    | cons f2 rest2 =>
      have hrest : ∀ g ∈ f2 :: rest2, ∀ ch ∈ g.data, ch ≠ ',' :=
        fun g hg ch hch => hfree g (List.mem_cons_of_mem _ hg) ch hch
      have hih := ih (by simp) hrest
      have hdata : (csv_join (f :: f2 :: rest2) ++ ",,").data =
          f.data ++ (',' :: (csv_join (f2 :: rest2) ++ ",,").data) := by
        rw [show csv_join (f :: f2 :: rest2) = (f ++ ",") ++ csv_join (f2 :: rest2) from rfl,
          String.data_append, String.data_append, String.data_append, String.data_append]
        rw [show (("," : String).data) = [','] from rfl]
        simp
      have hchars : split_commas_chars ((csv_join (f :: f2 :: rest2) ++ ",,").data) =
          (f.data, (split_commas_chars ((csv_join (f2 :: rest2) ++ ",,").data)).1 ::
            (split_commas_chars ((csv_join (f2 :: rest2) ++ ",,").data)).2) := by
        rw [hdata, split_commas_chars_append_free f.data _ hf]
        rw [show split_commas_chars (',' :: (csv_join (f2 :: rest2) ++ ",,").data) =
            ([], (split_commas_chars ((csv_join (f2 :: rest2) ++ ",,").data)).1 ::
              (split_commas_chars ((csv_join (f2 :: rest2) ++ ",,").data)).2) from by
          rw [split_commas_chars, if_pos rfl]]
        rw [List.append_nil]
      rw [split_commas, hchars]
      show String.mk f.data ::
          (String.mk (split_commas_chars ((csv_join (f2 :: rest2) ++ ",,").data)).1 ::
            (split_commas_chars ((csv_join (f2 :: rest2) ++ ",,").data)).2.map String.mk) =
        f :: ((f2 :: rest2) ++ ["", ""])
      rw [show String.mk f.data = f from by cases f; rfl]
      exact congrArg (List.cons f) hih

/-- C8: every written small-body row is the 12 response fields joined by
commas, then two extra empty fields, then the newline — so the physical row
before the newline has exactly 14 comma-separated fields with the 13th and
14th empty. -/
theorem C8_small_body_row_fields (fields : List String) (h12 : fields.length = 12)
    (hok : ∀ f ∈ fields, ∀ ch ∈ f.data, ch ≠ ',' ∧ ch ≠ '"' ∧ ch ≠ '\n' ∧ ch ≠ '\x0d') :
    csv_line small_lineterminator fields = (csv_join fields ++ ",,") ++ os_linesep ∧
    split_commas (csv_join fields ++ ",,") = fields ++ ["", ""] ∧
    (split_commas (csv_join fields ++ ",,")).length = 14 ∧
    (split_commas (csv_join fields ++ ",,")).get? 12 = some "" ∧
    (split_commas (csv_join fields ++ ",,")).get? 13 = some "" := by
  have hquote : fields.map csv_quote_field = fields := by
    rw [List.map_congr_left (fun f hf => csv_quote_field_id f (hok f hf)), List.map_id']
  have hne : fields ≠ [] := by
    intro h
    rw [h] at h12
    exact absurd h12 (by decide)
  have hsplit := split_commas_csv_join fields hne
    (fun f hf ch hch => (hok f hf ch hch).1)
  refine ⟨?_, hsplit, ?_, ?_, ?_⟩
  · rw [csv_line, hquote, small_lineterminator, String.append_assoc]
  · rw [hsplit, List.length_append, h12]
    rfl
  · rw [hsplit, List.get?_append_right (by omega), h12]
    rfl
  · rw [hsplit, List.get?_append_right (by omega), h12]
    rfl

/-- Witness for `C8_small_body_row_fields` on a concrete 12-field response
row. -/
theorem C8_small_body_row_fields_witness :
    csv_line small_lineterminator
        ["0.07", "2.76", "10.6", "80.3", "73.6", "60.1", "2458600.5", "3.4",
         "0.09", "939.4", "MBA", "1 Ceres"] =
      (csv_join ["0.07", "2.76", "10.6", "80.3", "73.6", "60.1", "2458600.5", "3.4",
         "0.09", "939.4", "MBA", "1 Ceres"] ++ ",,") ++ os_linesep ∧
    split_commas (csv_join ["0.07", "2.76", "10.6", "80.3", "73.6", "60.1", "2458600.5",
        "3.4", "0.09", "939.4", "MBA", "1 Ceres"] ++ ",,") =
      ["0.07", "2.76", "10.6", "80.3", "73.6", "60.1", "2458600.5", "3.4",
       "0.09", "939.4", "MBA", "1 Ceres"] ++ ["", ""] ∧
    (split_commas (csv_join ["0.07", "2.76", "10.6", "80.3", "73.6", "60.1", "2458600.5",
        "3.4", "0.09", "939.4", "MBA", "1 Ceres"] ++ ",,")).length = 14 ∧
    (split_commas (csv_join ["0.07", "2.76", "10.6", "80.3", "73.6", "60.1", "2458600.5",
        "3.4", "0.09", "939.4", "MBA", "1 Ceres"] ++ ",,")).get? 12 = some "" ∧
    (split_commas (csv_join ["0.07", "2.76", "10.6", "80.3", "73.6", "60.1", "2458600.5",
        "3.4", "0.09", "939.4", "MBA", "1 Ceres"] ++ ",,")).get? 13 = some "" :=
  C8_small_body_row_fields
    ["0.07", "2.76", "10.6", "80.3", "73.6", "60.1", "2458600.5", "3.4",
     "0.09", "939.4", "MBA", "1 Ceres"]
    rfl (by decide)

/-! ## Witnesses for the tally claims -/

/-- Witness for `C6_statistics_tally`: one genuine record with class "PLA"
and one record with the unknown class code "XXX". -/
theorem C6_statistics_tally_witness :
    ((orbit_classes_init.length = 17 ∧
      orbit_classes_init.all (fun x => x.2.2 == 0) = true) ∧
    tally_rows orbit_classes_init
        [["0", "1", "0", "0", "0", "0", "2451544.5", "", "", "", "PLA", "Mercury", "3.301011e+23", "Sun"],
         ["0", "1", "0", "0", "0", "0", "2451544.5", "", "", "", "XXX", "Oumuamua", "", ""]] =
      (if ([["0", "1", "0", "0", "0", "0", "2451544.5", "", "", "", "PLA", "Mercury", "3.301011e+23", "Sun"],
            ["0", "1", "0", "0", "0", "0", "2451544.5", "", "", "", "XXX", "Oumuamua", "", ""]] :
              List (List String)).all
            (known_code (orbit_classes_init.map (fun x => x.1))) then
        some (orbit_classes_init.map (fun x =>
          (x.1, x.2.1, x.2.2 +
            ([["0", "1", "0", "0", "0", "0", "2451544.5", "", "", "", "PLA", "Mercury", "3.301011e+23", "Sun"],
              ["0", "1", "0", "0", "0", "0", "2451544.5", "", "", "", "XXX", "Oumuamua", "", ""]] :
                List (List String)).countP
              (fun r => r.get? 10 == some x.1))))
      else none) ∧
    (tally_rows orbit_classes_init
        [["0", "1", "0", "0", "0", "0", "2451544.5", "", "", "", "PLA", "Mercury", "3.301011e+23", "Sun"],
         ["0", "1", "0", "0", "0", "0", "2451544.5", "", "", "", "XXX", "Oumuamua", "", ""]] = none ↔
      ([["0", "1", "0", "0", "0", "0", "2451544.5", "", "", "", "PLA", "Mercury", "3.301011e+23", "Sun"],
        ["0", "1", "0", "0", "0", "0", "2451544.5", "", "", "", "XXX", "Oumuamua", "", ""]] :
          List (List String)).all
        (known_code (orbit_classes_init.map (fun x => x.1))) = false)) :=
  C6_statistics_tally
    [["0", "1", "0", "0", "0", "0", "2451544.5", "", "", "", "PLA", "Mercury", "3.301011e+23", "Sun"],
     ["0", "1", "0", "0", "0", "0", "2451544.5", "", "", "", "XXX", "Oumuamua", "", ""]]
    (by decide)

/-- Witness for `C7_printed_totals` at one concrete record list. -/
theorem C7_printed_totals_witness :
    (total_line [("PLA", "Planets", 1), ("DWA", "Dwarf Planets", 0), ("SAT", "Moons", 0),
      ("IEO", "Atira", 0), ("ATE", "Aten", 0), ("APO", "Apollo", 0), ("AMO", "Amor", 0),
      ("MCA", "Mars-crossing Asteroid", 0), ("IMB", "Inner Main-belt Asteroid", 0),
      ("MBA", "Main-belt Asteroid", 0), ("OMB", "Outer Main-belt Asteroid", 0),
      ("TJN", "Jupiter Trojan", 0), ("AST", "Asteroid", 0), ("CEN", "Centaur", 0),
      ("TNO", "TransNeptunian Object", 0), ("PAA", "Parabolic \"Asteroid\"", 0),
      ("HYA", "Hyperbolic \"Asteroid\"", 0)] =
      "Total number of bodies is " ++
        toString (total_number_of_bodies
          [("PLA", "Planets", 1), ("DWA", "Dwarf Planets", 0), ("SAT", "Moons", 0),
           ("IEO", "Atira", 0), ("ATE", "Aten", 0), ("APO", "Apollo", 0), ("AMO", "Amor", 0),
           ("MCA", "Mars-crossing Asteroid", 0), ("IMB", "Inner Main-belt Asteroid", 0),
           ("MBA", "Main-belt Asteroid", 0), ("OMB", "Outer Main-belt Asteroid", 0),
           ("TJN", "Jupiter Trojan", 0), ("AST", "Asteroid", 0), ("CEN", "Centaur", 0),
           ("TNO", "TransNeptunian Object", 0), ("PAA", "Parabolic \"Asteroid\"", 0),
           ("HYA", "Hyperbolic \"Asteroid\"", 0)]) ++
        " + 1 (Sun) = " ++
        toString (total_number_of_bodies
          [("PLA", "Planets", 1), ("DWA", "Dwarf Planets", 0), ("SAT", "Moons", 0),
           ("IEO", "Atira", 0), ("ATE", "Aten", 0), ("APO", "Apollo", 0), ("AMO", "Amor", 0),
           ("MCA", "Mars-crossing Asteroid", 0), ("IMB", "Inner Main-belt Asteroid", 0),
           ("MBA", "Main-belt Asteroid", 0), ("OMB", "Outer Main-belt Asteroid", 0),
           ("TJN", "Jupiter Trojan", 0), ("AST", "Asteroid", 0), ("CEN", "Centaur", 0),
           ("TNO", "TransNeptunian Object", 0), ("PAA", "Parabolic \"Asteroid\"", 0),
           ("HYA", "Hyperbolic \"Asteroid\"", 0)] + 1) ++ ".") ∧
    total_number_of_bodies
      [("PLA", "Planets", 1), ("DWA", "Dwarf Planets", 0), ("SAT", "Moons", 0),
       ("IEO", "Atira", 0), ("ATE", "Aten", 0), ("APO", "Apollo", 0), ("AMO", "Amor", 0),
       ("MCA", "Mars-crossing Asteroid", 0), ("IMB", "Inner Main-belt Asteroid", 0),
       ("MBA", "Main-belt Asteroid", 0), ("OMB", "Outer Main-belt Asteroid", 0),
       ("TJN", "Jupiter Trojan", 0), ("AST", "Asteroid", 0), ("CEN", "Centaur", 0),
       ("TNO", "TransNeptunian Object", 0), ("PAA", "Parabolic \"Asteroid\"", 0),
       ("HYA", "Hyperbolic \"Asteroid\"", 0)] =
      ([["0", "1", "0", "0", "0", "0", "2451544.5", "", "", "", "PLA", "Mercury",
         "3.301011e+23", "Sun"]] : List (List String)).length :=
  C7_printed_totals
    [["0", "1", "0", "0", "0", "0", "2451544.5", "", "", "", "PLA", "Mercury",
      "3.301011e+23", "Sun"]]
    [("PLA", "Planets", 1), ("DWA", "Dwarf Planets", 0), ("SAT", "Moons", 0),
     ("IEO", "Atira", 0), ("ATE", "Aten", 0), ("APO", "Apollo", 0), ("AMO", "Amor", 0),
     ("MCA", "Mars-crossing Asteroid", 0), ("IMB", "Inner Main-belt Asteroid", 0),
     ("MBA", "Main-belt Asteroid", 0), ("OMB", "Outer Main-belt Asteroid", 0),
     ("TJN", "Jupiter Trojan", 0), ("AST", "Asteroid", 0), ("CEN", "Centaur", 0),
     ("TNO", "TransNeptunian Object", 0), ("PAA", "Parabolic \"Asteroid\"", 0),
     ("HYA", "Hyperbolic \"Asteroid\"", 0)]
    rfl

end QueryData
